import Mathlib

/-!
Shallow embedding of the N1 lookup-and-interpolation engine of the
Simbrief_to_IF repository (src/b772N1.py, src/a223N1.py, src/a388N1.py,
src/utils/interpolation.py, src/utils/slider_math.py,
src/utils/n1_dispatcher.py), together with proofs of the specification
claims about it.

Modelling conventions:
* Python floats are modelled as exact rationals; the floating-point NaN
  sentinel ("table cell not certified") is modelled by `Option ℚ` with
  `none` playing the role of NaN.  Arithmetic on possibly-NaN values
  propagates `none`, exactly as IEEE arithmetic propagates NaN.
* Python's two-argument `max(a, b)` / `min(a, b)` keep the FIRST argument
  unless the second compares strictly greater/smaller; a comparison with
  NaN is false.  `pymax`/`pymin` reproduce this, which matters for
  `n1_to_slider` (src/utils/slider_math.py) where a NaN input meets
  `min`/`max` with no explicit guard.
* `bisect.bisect_right` is embedded as the CPython loop (lo/hi halving);
  the `fuel` argument only bounds the number of loop iterations and is
  instantiated with the list length, which is an upper bound on the
  iteration count of the real loop.
-/

namespace SimbriefIF

/-- Python `a > b` on possibly-NaN floats: any comparison with NaN is false. -/
def pyGT : Option ℚ → Option ℚ → Bool
  | some a, some b => decide (a > b)
  | _, _ => false

/-- Python `a < b` on possibly-NaN floats: any comparison with NaN is false. -/
def pyLT : Option ℚ → Option ℚ → Bool
  | some a, some b => decide (a < b)
  | _, _ => false

/-- CPython two-argument `max(a, b)`: returns `b` only when `b > a` compares true. -/
def pymax (a b : Option ℚ) : Option ℚ := if pyGT b a then b else a

/-- CPython two-argument `min(a, b)`: returns `b` only when `b < a` compares true. -/
def pymin (a b : Option ℚ) : Option ℚ := if pyLT b a then b else a

/-- Python `str.upper()` (the mode strings in this program are ASCII),
expressed as a map over the character list so that it evaluates in the
kernel. -/
def pyUpper (s : String) : String := ⟨s.data.map Char.toUpper⟩

/-- Does `hay` start with `needle` (helper for Python's `in` on strings)? -/
def charsLead : List Char → List Char → Bool
  | [], _ => true
  | _ :: _, [] => false
  | c :: cs, h :: hs => c = h && charsLead cs hs

/-- Does `hay` contain `needle` as a contiguous run (helper for Python's `in`)? -/
def charsSub (needle : List Char) : List Char → Bool
  | [] => needle.isEmpty
  | c :: hs => charsLead needle (c :: hs) || charsSub needle hs

/-- Python `needle in hay` for strings. -/
def pyIn (needle hay : String) : Bool := charsSub needle.data hay.data

/-- One CPython `bisect_right` loop: `while lo < hi: mid = (lo+hi)//2;
if x < a[mid]: hi = mid else: lo = mid+1`.  `fuel` bounds the number of
iterations (the interval shrinks every round, so `a.length` rounds always
suffice). -/
def bisectAux (a : List ℚ) (x : ℚ) : ℕ → ℕ → ℕ → ℕ
  | 0, lo, _hi => lo
  | fuel + 1, lo, hi =>
    if lo < hi then
      if x < a.getD ((lo + hi) / 2) 0 then bisectAux a x fuel lo ((lo + hi) / 2)
      else bisectAux a x fuel ((lo + hi) / 2 + 1) hi
    else lo

/-- `bisect.bisect_right(a, x)` with the default `lo=0, hi=len(a)`. -/
def bisect_right (a : List ℚ) (x : ℚ) : ℕ := bisectAux a x a.length 0 a.length

/-- 1-D linear interpolation `interp1` of src/utils/interpolation.py
(textually identical private copies `_interp1` live in b772N1.py,
a223N1.py and a388N1.py).  The interpolated values may be NaN (`none`);
the axis values `x, x0, x1` are always real numbers at every call site. -/
def interp1 (x x0 x1 : ℚ) (y0 y1 : Option ℚ) : Option ℚ :=
  if x1 = x0 then y0
  else
    match y0, y1 with
    | some a, some b => some (a + (b - a) * ((x - x0) / (x1 - x0)))
    | _, _ => none

/-- `locate` of src/utils/interpolation.py (identical private copies
`_locate` in b772N1.py, a223N1.py, a388N1.py): bracketing indices and
values in a sorted axis, clamped at the ends.  `axis[-1]` is the last
element; the axes are non-empty everywhere in the program, so the `getD`
defaults are never reached at call sites. -/
def locate (axis : List ℚ) (x : ℚ) : ℕ × ℕ × ℚ × ℚ :=
  if x ≤ axis.getD 0 0 then (0, 0, axis.getD 0 0, axis.getD 0 0)
  else if axis.getD (axis.length - 1) 0 ≤ x then
    (axis.length - 1, axis.length - 1, axis.getD (axis.length - 1) 0,
      axis.getD (axis.length - 1) 0)
  else
    (bisect_right axis x - 1, bisect_right axis x,
      axis.getD (bisect_right axis x - 1) 0, axis.getD (bisect_right axis x) 0)

/-- `bilinear` of src/utils/interpolation.py.  Note: the altitude query is
divided by 1000 before being located against `ALT_COLS` and before the
altitude-direction interpolations, and there is no all-NaN corner check.
Rows are fetched by temperature VALUE (`table[T0]`), columns by index. -/
def bilinear (table : ℚ → List (Option ℚ)) (A_ft T_c : ℚ)
    (ALT_COLS TEMP_ROWS : List ℚ) : Option ℚ :=
  match locate TEMP_ROWS T_c, locate ALT_COLS (A_ft / 1000) with
  | (_r0, _r1, T0, T1), (c0, c1, A0, A1) =>
    let Q11 := (table T0).getD c0 none
    let Q21 := (table T0).getD c1 none
    let Q12 := (table T1).getD c0 none
    let Q22 := (table T1).getD c1 none
    if A1 = A0 ∧ T1 = T0 then Q11
    else if A1 = A0 then interp1 T_c T0 T1 Q11 Q12
    else if T1 = T0 then interp1 (A_ft / 1000) A0 A1 Q11 Q21
    else interp1 T_c T0 T1 (interp1 (A_ft / 1000) A0 A1 Q11 Q21)
      (interp1 (A_ft / 1000) A0 A1 Q12 Q22)

/-- The per-aircraft bilinear interpolator body shared (textually
identically, up to the fixed axis globals) by `_bilinear_777` of
b772N1.py and `_bilinear` of a223N1.py and a388N1.py: locate both axes,
fetch the four corners (row by temperature value, column by index),
return NaN if all four corners are NaN, handle the degenerate brackets,
otherwise interpolate altitude at both temperatures and then temperature.
Unlike utils/interpolation.py, the altitude query is used as given. -/
def bilinearModule (TEMPS ALTS : List ℚ) (rows : ℚ → List (Option ℚ))
    (A_ft T_c : ℚ) : Option ℚ :=
  match locate TEMPS T_c, locate ALTS A_ft with
  | (_r0, _r1, T0, T1), (c0, c1, A0, A1) =>
    let Q11 := (rows T0).getD c0 none
    let Q21 := (rows T0).getD c1 none
    let Q12 := (rows T1).getD c0 none
    let Q22 := (rows T1).getD c1 none
    if Q11 = none ∧ Q21 = none ∧ Q12 = none ∧ Q22 = none then none
    else if T1 = T0 ∧ A1 = A0 then Q11
    else if T1 = T0 then interp1 A_ft A0 A1 Q11 Q21
    else if A1 = A0 then interp1 T_c T0 T1 Q11 Q12
    else interp1 T_c T0 T1 (interp1 A_ft A0 A1 Q11 Q21)
      (interp1 A_ft A0 A1 Q12 Q22)

/-- The four corner cells fetched by `bilinearModule` (lines 106-113 of
b772N1.py): the same two locates and the same four `rows[T][c]` reads. -/
def moduleCorners (TEMPS ALTS : List ℚ) (rows : ℚ → List (Option ℚ))
    (A_ft T_c : ℚ) : Option ℚ × Option ℚ × Option ℚ × Option ℚ :=
  match locate TEMPS T_c, locate ALTS A_ft with
  | (_r0, _r1, T0, T1), (c0, c1, _A0, _A1) =>
    ((rows T0).getD c0 none, (rows T0).getD c1 none,
      (rows T1).getD c0 none, (rows T1).getD c1 none)

/-- The four corner cells fetched by `bilinear` of utils/interpolation.py
(altitude query divided by 1000, as in the source). -/
def genericCorners (table : ℚ → List (Option ℚ)) (A_ft T_c : ℚ)
    (ALT_COLS TEMP_ROWS : List ℚ) : Option ℚ × Option ℚ × Option ℚ × Option ℚ :=
  match locate TEMP_ROWS T_c, locate ALT_COLS (A_ft / 1000) with
  | (_r0, _r1, T0, T1), (c0, c1, _A0, _A1) =>
    ((table T0).getD c0 none, (table T0).getD c1 none,
      (table T1).getD c0 none, (table T1).getD c1 none)


/-- Temperature axis of b772N1.py (degrees C). -/
def TEMP_ROWS_C_772 : List ℚ := [-50, -40, -30, -20, -10, 0, 5, 10, 15, 20, 25, 30, 35, 40, 45, 50, 60]

/-- Altitude axis of b772N1.py (feet). -/
def ALT_COLS_FT_772 : List ℚ := [-2000, 0, 1000, 2000, 3000, 4000, 5000, 6000, 7000, 8000, 9000]

/-- MAX takeoff N1 table of b772N1.py; blank (NaN) cells are none. -/
def N1_ROWS_777_MAX : ℚ → List (Option ℚ) := fun T =>
  if T = -50 then [some 86.7, some 88.9, some 89.4, some 89.9, some 90.4, some 90.9, some 91.4, some 92, some 92.7, some 93.1, some 93.3]
  else if T = -40 then [some 88.6, some 90.9, some 91.4, some 91.9, some 92.4, some 92.9, some 93.4, some 94, some 94.8, some 95.1, some 95.4]
  else if T = -30 then [some 90.5, some 92.8, some 93.3, some 93.9, some 94.3, some 94.8, some 95.4, some 96, some 96.8, some 97.1, some 97.4]
  else if T = -20 then [some 92.4, some 94.7, some 95.2, some 95.8, some 96.3, some 96.8, some 97.4, some 97.9, some 98.7, some 99.1, some 99.4]
  else if T = -10 then [some 94.2, some 96.5, some 97.1, some 97.7, some 98.2, some 99.7, some 99.3, some 99.9, some 100.7, some 101.1, some 101.4]
  else if T = 0 then [some 96, some 98.3, some 98.9, some 99.5, some 100, some 100.5, some 101.1, some 101.7, some 102.6, some 103, some 103.3]
  else if T = 5 then [some 96.8, some 99.2, some 99.8, some 100.4, some 100.9, some 101.4, some 102.1, some 102.7, some 103.5, some 103.9, some 104.2]
  else if T = 10 then [some 97.7, some 100.1, some 100.7, some 101.3, some 101.8, some 102.4, some 103, some 103.6, some 104.4, some 104.8, some 105.1]
  else if T = 15 then [some 98.6, some 101, some 101.6, some 102.2, some 102.7, some 103.3, some 103.9, some 104.5, some 105.3, some 105.6, some 105.5]
  else if T = 20 then [some 99.4, some 101.9, some 102.5, some 103.1, some 103.6, some 104.1, some 104.8, some 105, some 105.5, some 105.3, some 104.8]
  else if T = 25 then [some 100.2, some 102.7, some 103.4, some 104, some 104.2, some 104.3, some 104.5, some 104.6, some 104.6, some 104.2, some 103.7]
  else if T = 30 then [some 101.1, some 103.6, some 103.7, some 103.6, some 103.6, some 103.7, some 103.7, some 103.7, some 103.7, some 103.3, some 103]
  else if T = 35 then [some 101.6, some 103.1, some 103.1, some 103.1, some 103.1, some 103.2, some 103.1, some 103.2, some 103.1, some 102.7, some 102.4]
  else if T = 40 then [some 100.9, some 102.6, some 102.3, some 102.5, some 102.4, some 102.5, some 102.6, some 102.5, some 102.5, some 102, some 101.3]
  else if T = 45 then [some 100.1, some 101.4, some 101.3, some 101.3, some 101.4, some 101.3, some 101.3, some 101.3, some 101.3, none, none]
  else if T = 50 then [some 99.2, some 99.9, some 99.9, some 99.8, some 99.8, some 99.9, none, none, none, none, none]
  else if T = 60 then [some 96.6, some 96.9, some 96.9, some 96.9, none, none, none, none, none, none, none]
  else []

/-- `_bilinear_777` of b772N1.py: `bilinearModule` at the 777 axes. -/
def bilinear_777 (rows : ℚ → List (Option ℚ)) (A_ft T_c : ℚ) : Option ℚ :=
  bilinearModule TEMP_ROWS_C_772 ALT_COLS_FT_772 rows A_ft T_c

/-- `n1_772_max` of b772N1.py: full-rated takeoff N1 for the 777-200ER. -/
def n1_772_max (A_ft T_c : ℚ) : Option ℚ :=
  bilinear_777 N1_ROWS_777_MAX A_ft T_c

/-- `_apply_derate_from_max` of b772N1.py: scale the excess N1 above idle
(20 percent) by 0.9 (TO1/D-TO1) or 0.8 (TO2/D-TO2); any other mode is
treated as MAX (factor 1); a NaN full-rated N1 is returned unchanged. -/
def apply_derate_from_max (n1_max : Option ℚ) (mode : String) : Option ℚ :=
  let mode_up := pyUpper mode
  let factor : ℚ :=
    if mode_up = "TO1" ∨ mode_up = "D-TO1" then 9/10
    else if mode_up = "TO2" ∨ mode_up = "D-TO2" then 8/10
    else 1
  match n1_max with
  | none => none
  | some v => some (20 + (v - 20) * factor)

/-- `n1_772` of b772N1.py. -/
def n1_772 (A_ft T_c : ℚ) (mode : String) : Option ℚ :=
  apply_derate_from_max (n1_772_max A_ft T_c) mode

/-- `slider_from_n1_772` of b772N1.py: slider 0 at N1 20, slider 100 at
N1 107; a NaN N1 returns NaN before any clamping arithmetic. -/
def slider_from_n1_772 (n1_percent : Option ℚ) : Option ℚ :=
  match n1_percent with
  | none => none
  | some n =>
    let n1_clamped := max 20 (min 107 n)
    some (max 0 (min 100 ((n1_clamped - 20) / 87 * 100)))

/-- `n1_and_slider_772` of b772N1.py. -/
def n1_and_slider_772 (mode : String) (A_ft T_c : ℚ) : Option ℚ × Option ℚ :=
  (n1_772 A_ft T_c mode, slider_from_n1_772 (n1_772 A_ft T_c mode))

/-- `compute_takeoff_n1` of b772N1.py (lines 208-255).  `packs_on` and
`eng_anti_ice_on` are omitted: the source normalises and then discards
them (`_ = packs_flag; _ = eng_anti_ice_on`), so they never influence the
returned pair.  `mode or "MAX"` treats the empty string as missing;
FLEX with a supplied SEL TEMP (`is not None`) looks up MAX at SEL TEMP. -/
def compute_takeoff_n1_772 (pressure_alt_ft oat_C : ℚ) (mode : String)
    (sel_temp_C : Option ℚ) : Option ℚ × Option ℚ :=
  let mode1 := pyUpper (if mode = "" then "MAX" else mode)
  match
    (if mode1 = "FLEX" then
      match sel_temp_C with
      | some t => (t, "MAX")
      | none => (oat_C, mode1)
    else (oat_C, mode1)) with
  | (temp_for_calc, mode_for_tables) =>
    n1_and_slider_772 mode_for_tables pressure_alt_ft temp_for_calc

/-- Temperature axis of a223N1.py (degrees C). -/
def TEMP_ROWS_C_A223 : List ℚ := [-54, -50, -45, -40, -35, -30, -25, -20, -15, -10, -5, 0, 5, 10, 15, 20, 25, 30, 35, 40, 45, 53]

/-- Altitude axis of a223N1.py (feet). -/
def ALT_COLS_FT_A223 : List ℚ := [-2000, 0, 1000, 2000, 3000, 4000, 6000, 8000, 10000, 12000, 14500]

/-- MAX takeoff N1 table of a223N1.py. -/
def N1_ROWS_A223_MAX : ℚ → List (Option ℚ) := fun T =>
  if T = -54 then [some 73.6, some 75.9, some 76.5, some 77.2, some 77.8, some 78.4, some 79.5, some 80.6, some 81.6, some 82.6, some 83.7]
  else if T = -50 then [some 74.2, some 76.6, some 77.2, some 77.9, some 78.5, some 79.1, some 80.3, some 81.3, some 82.4, some 83.3, some 84.4]
  else if T = -45 then [some 75.1, some 77.4, some 78.1, some 78.7, some 79.3, some 79.9, some 81.1, some 82.2, some 83.3, some 84.3, some 85.4]
  else if T = -40 then [some 75.9, some 78.2, some 78.9, some 79.6, some 80.2, some 80.8, some 82, some 83.1, some 84.2, some 85.2, some 86.3]
  else if T = -35 then [some 76.7, some 79.1, some 79.7, some 80.4, some 81, some 81.7, some 82.9, some 84, some 85.1, some 86.1, some 87.2]
  else if T = -30 then [some 77.4, some 79.9, some 80.6, some 81.2, some 81.9, some 82.5, some 83.7, some 84.9, some 85.9, some 86.9, some 88.1]
  else if T = -25 then [some 78.2, some 80.7, some 81.4, some 82.1, some 82.7, some 83.3, some 84.6, some 85.7, some 86.8, some 87.8, some 89]
  else if T = -20 then [some 79, some 81.5, some 82.2, some 82.9, some 83.5, some 84.2, some 85.4, some 86.6, some 87.7, some 88.7, some 89.8]
  else if T = -15 then [some 79.8, some 82.3, some 83, some 83.7, some 84.3, some 85, some 86.2, some 87.4, some 88.5, some 89.5, some 90.7]
  else if T = -10 then [some 80.5, some 83.1, some 83.8, some 84.5, some 85.1, some 85.7, some 87, some 88.2, some 89.1, some 90.2, some 91.6]
  else if T = -5 then [some 81.3, some 83.8, some 84.6, some 85.3, some 85.9, some 86.8, some 87.9, some 89.1, some 90.2, some 91.2, some 92.4]
  else if T = 0 then [some 82, some 84.6, some 85.3, some 86.1, some 86.7, some 87.4, some 88.7, some 89.9, some 91, some 92.1, some 93.3]
  else if T = 5 then [some 82.8, some 85.4, some 86.1, some 87, some 87.5, some 88.2, some 89.5, some 90.7, some 91.8, some 92.9, some 93.3]
  else if T = 10 then [some 83.5, some 86.2, some 86.9, some 87.6, some 88.3, some 89, some 90.3, some 91.5, some 92.6, some 92.8, some 92.7]
  else if T = 15 then [some 84.3, some 86.9, some 87.7, some 88.4, some 89.1, some 89.8, some 91.1, some 92.3, some 92, some 91.9, some 92]
  else if T = 20 then [some 85, some 87.7, some 88.4, some 89.2, some 89.9, some 90.5, some 91.5, some 91.2, some 91, some 90.9, some 91]
  else if T = 25 then [some 85.7, some 88.4, some 89.2, some 89.9, some 90.3, some 90.3, some 90.2, some 90.1, some 89.7, some 89.7, some 89.8]
  else if T = 30 then [some 86.5, some 89.2, some 89.2, some 89.2, some 89.2, some 89.2, some 89.1, some 88.9, some 88.5, some 88.5, some 88.7]
  else if T = 35 then [some 86.8, some 88, some 88, some 88, some 88, some 87.9, some 87.8, some 87.6, some 87.4, some 87.4, some 87.5]
  else if T = 40 then [some 85.6, some 86.8, some 86.8, some 86.8, some 87.6, some 86.7, some 86.6, some 86.4, some 86.4, some 86.6, some 86.1]
  else if T = 45 then [some 84.2, some 85.5, some 85.5, some 85.5, some 85.5, some 85.4, some 85.4, some 85.4, some 85.4, some 85.4, none]
  else if T = 53 then [some 82.3, some 83.6, some 83.6, some 83.4, some 83.4, some 83.4, some 83.3, some 83.2, none, none, none]
  else []

/-- TO1 derated N1 table of a223N1.py. -/
def N1_ROWS_A223_TO1 : ℚ → List (Option ℚ) := fun T =>
  if T = -54 then [some 70.8, some 73.1, some 73.7, some 74.3, some 74.9, some 75.6, some 76.6, some 77.6, some 78.5, some 79.5, some 80.5]
  else if T = -50 then [some 71.4, some 73.7, some 74.3, some 75, some 75.6, some 76.2, some 77.3, some 78.3, some 79.2, some 80.2, some 81.2]
  else if T = -45 then [some 72.3, some 74.5, some 75.2, some 75.9, some 76.5, some 77.1, some 78.2, some 79.2, some 80.1, some 81.1, some 82.1]
  else if T = -40 then [some 73.6, some 76.1, some 76.8, some 77.3, some 77.8, some 78.4, some 79.6, some 80.6, some 81.2, some 82, some 83]
  else if T = -35 then [some 73.6, some 76.1, some 76.7, some 77.4, some 78, some 78.6, some 79.8, some 80.8, some 81.2, some 82, some 83]
  else if T = -30 then [some 74.3, some 76.9, some 77.6, some 78.2, some 78.9, some 79.5, some 80.7, some 81.8, some 82.2, some 83.1, some 84]
  else if T = -25 then [some 75.3, some 77.9, some 78.4, some 79, some 79.8, some 80.4, some 81.6, some 82.7, some 83.1, some 84, some 84.9]
  else if T = -20 then [some 76.6, some 78.7, some 79.4, some 80, some 81.1, some 81.7, some 82.9, some 84, some 84.2, some 85.1, some 86]
  else if T = -15 then [some 76.9, some 79.8, some 80.6, some 81.2, some 81.8, some 82.4, some 83.7, some 84.8, some 85.2, some 86, some 86.9]
  else if T = -10 then [some 77.5, some 80.7, some 81.4, some 82.1, some 82.8, some 83.4, some 84.6, some 85.8, some 86.1, some 86.9, some 87.8]
  else if T = -5 then [some 78.2, some 81.7, some 82.1, some 82.8, some 83.6, some 84.4, some 85.5, some 86.8, some 87.1, some 87.9, some 88.8]
  else if T = 0 then [some 79, some 82.7, some 83, some 83.8, some 84.5, some 85.3, some 86.6, some 87.8, some 88, some 88.9, some 89.8]
  else if T = 5 then [some 79.7, some 82.9, some 83.2, some 83.9, some 84.6, some 85.2, some 86.4, some 87.7, some 88, some 88.8, some 89.7]
  else if T = 10 then [some 80.4, some 83.6, some 84.3, some 85, some 85.6, some 86.3, some 87.5, some 88.8, some 89, some 89.9, some 90.8]
  else if T = 15 then [some 81.1, some 84.7, some 85.2, some 85.9, some 86.5, some 87.2, some 88.3, some 89.6, some 89.8, some 90.7, some 91.6]
  else if T = 20 then [some 81.7, some 85.4, some 86, some 86.7, some 87.4, some 88, some 89.2, some 90.4, some 90.6, some 91.4, some 92.2]
  else if T = 25 then [some 82.5, some 85.9, some 86.5, some 86.6, some 87.3, some 87.8, some 88.7, some 89.3, some 89.7, some 89.8, some 90.2]
  else if T = 30 then [some 83.4, some 85.8, some 86.2, some 86, some 86.8, some 87.4, some 87.9, some 88.9, some 88.5, some 88.7, some 88.7]
  else if T = 35 then [some 84.3, some 83.3, some 83.2, some 83.2, some 83.2, some 83.2, some 83.2, some 83.2, some 87.1, some 87.1, some 87.2]
  else if T = 40 then [some 83.3, some 82.2, some 82.3, some 82.2, some 82.2, some 82.1, some 82.1, some 82, some 86.4, some 86.6, some 86.5]
  else if T = 45 then [some 81.1, some 81.3, some 82.3, some 82.2, some 82.2, some 81.8, some 81.7, some 81.4, some 85.4, some 85.6, none]
  else if T = 53 then [some 79.2, some 80.5, some 80.4, some 80.3, some 80.2, some 80.1, some 80, some 79.6, none, none, none]
  else []

/-- TO2 derated N1 table of a223N1.py. -/
def N1_ROWS_A223_TO2 : ℚ → List (Option ℚ) := fun T =>
  if T = -54 then [some 68.1, some 70.3, some 71.5, some 72.1, some 72.7, some 73.7, some 74.7, some 75.6, some 76.6, some 77.6, some 78.5]
  else if T = -50 then [some 68.7, some 70.9, some 71.6, some 72.2, some 72.7, some 73.7, some 74.5, some 76.3, some 77.3, some 78.2, some 79.5]
  else if T = -45 then [some 69.9, some 72.1, some 73, some 73.4, some 74.2, some 74.9, some 75.7, some 76.3, some 77, some 78.1, some 79.4]
  else if T = -40 then [some 70.9, some 73.2, some 74.3, some 74.9, some 75.6, some 76.7, some 76.6, some 77.8, some 78.9, some 79.7, some 80.7]
  else if T = -35 then [some 71.9, some 73.2, some 74.5, some 75.1, some 75.7, some 76.6, some 76.6, some 77.8, some 78.9, some 79.8, some 80.7]
  else if T = -30 then [some 72.5, some 73.8, some 75.2, some 75.9, some 76.6, some 77.6, some 77.6, some 78.7, some 79.8, some 80.7, some 81.6]
  else if T = -25 then [some 72.4, some 74.8, some 75.6, some 76.7, some 77.4, some 78.4, some 78.4, some 79.4, some 80.4, some 81.4, some 82.4]
  else if T = -20 then [some 71.7, some 75.2, some 75.4, some 76.9, some 77.8, some 79, some 78.9, some 79.7, some 80.2, some 81.3, some 82.4]
  else if T = -15 then [some 71, some 76.2, some 76.7, some 77.6, some 78.8, some 80.1, some 80.1, some 81.2, some 82.2, some 82.9, some 84]
  else if T = -10 then [some 72, some 77.6, some 78.1, some 79, some 79.7, some 81.2, some 81.4, some 82.5, some 83.6, some 84.2, some 85.4]
  else if T = -5 then [some 73, some 77.7, some 79, some 80, some 80.9, some 82, some 82.6, some 83.7, some 84.8, some 85.6, some 86.2]
  else if T = 0 then [some 75.2, some 78.4, some 79.7, some 80.7, some 81.4, some 82.8, some 83.6, some 84.8, some 85.8, some 86.6, some 87.2]
  else if T = 5 then [some 77.8, some 77.9, some 79.1, some 80.1, some 80.8, some 82.1, some 83, some 84, some 85.2, some 85.4, some 87]
  else if T = 10 then [some 79.8, some 79.1, some 80.2, some 81.2, some 81.7, some 82.8, some 83.6, some 85, some 86.2, some 87.6, some 86.7]
  else if T = 15 then [some 82.1, some 79.8, some 80.4, some 81.8, some 82.3, some 83.3, some 84, some 84.6, some 86.4, some 86.6, some 86.4]
  else if T = 20 then [some 84.7, some 81, some 81.4, some 82.7, some 83.2, some 84.2, some 85.4, some 85.5, some 85.4, some 86.6, some 86.6]
  else if T = 25 then [some 87.2, some 81.7, some 82.7, some 83.4, some 83.7, some 84, some 84.5, some 85.4, some 85.4, some 86.6, some 86]
  else if T = 30 then [some 89.2, some 81.8, some 82.7, some 82.9, some 82.7, some 82.9, some 83.3, some 83.8, some 85, some 86, some 86]
  else if T = 35 then [some 90.8, some 78.4, some 78.8, some 79, some 79.3, some 79.9, some 80.6, some 81.2, some 82, some 82.8, some 83]
  else if T = 40 then [some 92, some 78, some 78.4, some 78.7, some 78.8, some 79.3, some 79.7, some 79.9, some 80.9, some 81.2, some 81.6]
  else if T = 45 then [some 77, some 77.3, some 77.7, some 77, some 77.6, some 78.1, some 78.7, some 79.6, some 78.1, some 78.4, none]
  else if T = 53 then [some 75.7, some 77.3, some 77.1, some 77, some 76.9, some 76.8, some 76.8, some 76.6, none, none, none]
  else []

/-- `_bilinear` of a223N1.py: `bilinearModule` at the A220 axes. -/
def bilinear_a223 (rows : ℚ → List (Option ℚ)) (A_ft T_c : ℚ) : Option ℚ :=
  bilinearModule TEMP_ROWS_C_A223 ALT_COLS_FT_A223 rows A_ft T_c

/-- `n1_a223_max` of a223N1.py. -/
def n1_a223_max (A_ft T_c : ℚ) : Option ℚ := bilinear_a223 N1_ROWS_A223_MAX A_ft T_c

/-- `n1_a223_to1` of a223N1.py. -/
def n1_a223_to1 (A_ft T_c : ℚ) : Option ℚ := bilinear_a223 N1_ROWS_A223_TO1 A_ft T_c

/-- `n1_a223_to2` of a223N1.py. -/
def n1_a223_to2 (A_ft T_c : ℚ) : Option ℚ := bilinear_a223 N1_ROWS_A223_TO2 A_ft T_c

/-- `n1_a223` of a223N1.py: table-per-mode dispatch by substring test on
the uppercased mode; anything without "TO1"/"TO2" in it selects MAX. -/
def n1_a223 (A_ft T_c : ℚ) (mode : String) : Option ℚ :=
  let mode_up := pyUpper mode
  if pyIn "TO2" mode_up then n1_a223_to2 A_ft T_c
  else if pyIn "TO1" mode_up then n1_a223_to1 A_ft T_c
  else n1_a223_max A_ft T_c

/-- `slider_from_n1_a223` of a223N1.py: slider 0 at N1 20, slider 100 at
N1 101; NaN propagates. -/
def slider_from_n1_a223 (n1_percent : Option ℚ) : Option ℚ :=
  match n1_percent with
  | none => none
  | some n =>
    let n1_clamped := max 20 (min 101 n)
    some (max 0 (min 100 ((n1_clamped - 20) / 81 * 100)))

/-- `n1_and_slider_a223` of a223N1.py (`packs`/`eng_anti_ice` are accepted
and ignored by the source; omitted here). -/
def n1_and_slider_a223 (mode : String) (A_ft T_c : ℚ) : Option ℚ × Option ℚ :=
  (n1_a223 A_ft T_c mode, slider_from_n1_a223 (n1_a223 A_ft T_c mode))

/-- `compute_takeoff_n1` of a223N1.py (lines 281-318).  The FLEX branch is
guarded by `if mode == "FLEX" and sel_temp_C:` — Python TRUTHINESS of the
float, so a supplied SEL TEMP of 0.0 is treated as absent (contrast
b772N1.py, which tests `is not None`).  `packs_on`/`eng_anti_ice_on` are
normalised and then ignored by the callee; omitted. -/
def compute_takeoff_n1_a223 (pressure_alt_ft oat_C : ℚ) (mode : String)
    (sel_temp_C : Option ℚ) : Option ℚ × Option ℚ :=
  let mode1 := pyUpper (if mode = "" then "MAX" else mode)
  match
    (if mode1 = "FLEX" ∧ sel_temp_C ≠ none ∧ sel_temp_C ≠ some 0 then
      (sel_temp_C.getD 0, "MAX")
    else (oat_C, mode1)) with
  | (temp_for_calc, mode_for_tables) =>
    n1_and_slider_a223 mode_for_tables pressure_alt_ft temp_for_calc

/-- Altitude axis of a388N1.py (feet). -/
def ALT_COLS_FT_A380 : List ℚ := [-2000, 0, 2000, 4000, 6000, 8000, 10000, 12000, 14000]

/-- Temperature axis of a388N1.py (degrees C). -/
def TEMP_ROWS_C_A380 : List ℚ := [-60, -10, -5, 0, 5, 10, 15, 20, 25, 30, 35, 40, 45, 50, 55, 60]

/-- MAX takeoff (MTO) N1 table of a388N1.py. -/
def N1_A380_MTO : ℚ → List (Option ℚ) := fun T =>
  if T = -60 then [some 97.8, some 97.6, some 97.4, some 97.2, some 97, some 96.7, some 97.7, some 98.1, some 98.1]
  else if T = -10 then [some 97.8, some 97.6, some 97.4, some 97.2, some 97, some 96.7, some 97.7, some 98.1, some 98.1]
  else if T = -5 then [some 97.8, some 97.6, some 97.4, some 97.2, some 97, some 96.7, some 97.7, some 98.1, some 98.1]
  else if T = 0 then [some 97.8, some 97.6, some 97.4, some 97.2, some 97, some 96.7, some 97.7, some 98.1, some 97.4]
  else if T = 5 then [some 97.8, some 97.6, some 97.4, some 97.2, some 97, some 96.7, some 97.7, some 96.8, some 96.9]
  else if T = 10 then [some 97.8, some 97.6, some 97.4, some 97.2, some 97, some 96.7, some 96.6, some 96.6, some 97]
  else if T = 15 then [some 97.8, some 97.6, some 97.4, some 97.2, some 97, some 96.6, some 96.2, some 95.9, some 95.4]
  else if T = 20 then [some 97.8, some 97.6, some 97.4, some 97.2, some 97, some 96.4, some 96.2, some 95.9, some 95.4]
  else if T = 25 then [some 97.8, some 97.6, some 97.4, some 97.2, some 97, some 96.3, some 96, some 95.8, some 95.2]
  else if T = 30 then [some 97.8, some 97.6, some 97.3, some 97.1, some 96.9, some 96.2, some 96, some 95.7, none]
  else if T = 35 then [some 97.8, some 97.6, some 97.4, some 97.1, some 96.9, some 96.2, none, none, none]
  else if T = 40 then [some 97.7, some 97.5, some 97.3, some 97, some 96.8, none, none, none, none]
  else if T = 45 then [some 97.8, some 97.4, some 97.2, some 97, none, none, none, none, none]
  else if T = 50 then [some 97.7, some 97.6, some 97.3, none, none, none, none, none, none]
  else if T = 55 then [some 97.7, none, none, none, none, none, none, none, none]
  else if T = 60 then [none, none, none, none, none, none, none, none, none]
  else []

/-- `_bilinear` of a388N1.py: `bilinearModule` at the A380 axes. -/
def bilinear_a388 (rows : ℚ → List (Option ℚ)) (A_ft T_c : ℚ) : Option ℚ :=
  bilinearModule TEMP_ROWS_C_A380 ALT_COLS_FT_A380 rows A_ft T_c

/-- `n1_a380_mto` of a388N1.py. -/
def n1_a380_mto (A_ft T_c : ℚ) : Option ℚ := bilinear_a388 N1_A380_MTO A_ft T_c

/-- `slider_from_n1_a380` of a388N1.py: slider 0 at N1 17, slider 100 at
N1 111; NaN propagates. -/
def slider_from_n1_a380 (n1_percent : Option ℚ) : Option ℚ :=
  match n1_percent with
  | none => none
  | some n =>
    let n1_clamped := max 17 (min 111 n)
    some (max 0 (min 100 ((n1_clamped - 17) / 94 * 100)))

/-- `n1_and_slider_a380` of a388N1.py: always the MTO table, whatever the
requested mode (the source ignores `mode`, `packs`, `eng_anti_ice`). -/
def n1_and_slider_a380 (_mode : String) (A_ft T_c : ℚ) : Option ℚ × Option ℚ :=
  (n1_a380_mto A_ft T_c, slider_from_n1_a380 (n1_a380_mto A_ft T_c))

/-- `compute_takeoff_n1` of a388N1.py: forces mode "MAX" and the actual
OAT (FLEX and derates are ignored by design). -/
def compute_takeoff_n1_a388 (pressure_alt_ft oat_C : ℚ) (_mode : String)
    (_sel_temp_C : Option ℚ) : Option ℚ × Option ℚ :=
  n1_and_slider_a380 "MAX" pressure_alt_ft oat_C

/-- `n1_to_slider` of src/utils/slider_math.py: NO NaN guard; the clamp
is `min(max(slider, 0.0), 100.0)` with the possibly-NaN value as FIRST
argument of both `max` and `min`, so NaN survives both (CPython keeps
the first argument when the comparison with NaN is false). -/
def n1_to_slider (n1_percent : Option ℚ) : Option ℚ :=
  let slider := n1_percent.map (fun v => (v - 20) / 81 * 100)
  pymin (pymax slider (some 0)) (some 100)

/-- `slider_to_n1` of src/utils/slider_math.py. -/
def slider_to_n1 (slider_percent : Option ℚ) : Option ℚ :=
  slider_percent.map (fun v => 20 + v / 100 * 81)

/-- `SUPPORTED_AIRCRAFT` of src/utils/n1_dispatcher.py ("B777-300ER" is
commented out in the source). -/
def SUPPORTED_AIRCRAFT : List String :=
  ["B737 MAX 8", "B777-200ER", "A220-300", "A380-800"]

/-- `is_flex_active` of src/utils/simbrief_parser.py (lines 73-81). -/
def is_flex_active (oat_C sel_temp_C : Option ℚ) (mode_raw : Option String) : Bool :=
  let c1 := match mode_raw with
    | some m => !(m = "") && pyIn "FLEX" (pyUpper m)
    | none => false
  if c1 then true
  else match oat_C, sel_temp_C with
    | some o, some s => decide (s > o + 9/10)
    | _, _ => false

/-- `compute_takeoff_from_info` of src/utils/n1_dispatcher.py, restricted
to what reaches the returned `(N1_percent, IF_slider_percent)` pair: the
`SUPPORTED_AIRCRAFT` membership check (raise = `Except.error`), the FLEX
gating through `is_flex_active`, the A380 force-to-MAX override, and the
routing to each module's `compute_takeoff_n1`.  The UI plumbing (flaps,
speeds, packs normalisation, result-dict fields) does not affect this
pair and is omitted.  The module `b737max8N1` imported by the dispatcher
is not in src/, so the function it would contribute is a parameter
`b737fn`; no theorem depends on its values. -/
def compute_takeoff_from_info
    (b737fn : ℚ → ℚ → String → Option ℚ → Option ℚ × Option ℚ)
    (aircraft : String) (pressure_alt_ft oat_C : ℚ)
    (mode_raw : Option String) (mode_normalized : String)
    (sel_temp_C : Option ℚ) : Except String (Option ℚ × Option ℚ) :=
  if aircraft ∉ SUPPORTED_AIRCRAFT then
    Except.error ("compute_takeoff_from_info: aircraft \x27" ++ aircraft ++
      "\x27 is not in SUPPORTED_AIRCRAFT.")
  else
    let mode_norm := if mode_normalized = "" then "MAX" else mode_normalized
    let flex_active := is_flex_active (some oat_C) sel_temp_C mode_raw
    let calc_mode := if aircraft = "A380-800" then "MAX" else mode_norm
    let calc_sel_temp :=
      if aircraft = "A380-800" then none
      else if flex_active then sel_temp_C else none
    if aircraft = "B737 MAX 8" then
      Except.ok (b737fn pressure_alt_ft oat_C calc_mode calc_sel_temp)
    else if aircraft = "B777-200ER" then
      Except.ok (compute_takeoff_n1_772 pressure_alt_ft oat_C calc_mode calc_sel_temp)
    else if aircraft = "A220-300" then
      Except.ok (compute_takeoff_n1_a223 pressure_alt_ft oat_C calc_mode calc_sel_temp)
    else
      Except.ok (compute_takeoff_n1_a388 pressure_alt_ft oat_C calc_mode calc_sel_temp)

/-- The example table of spec section 8: temperature axis `[0, 10]`,
altitude axis `[0, 1000]`, cells `{0: [80.0, 82.0], 10: [83.0, 85.0]}`. -/
def exampleTable : ℚ → List (Option ℚ) := fun T =>
  if T = 0 then [some 80, some 82]
  else if T = 10 then [some 83, some 85]
  else []

/-- A one-cell table whose only cell is undefined, for exercising the
degenerate "both queries exactly on grid lines, cell undefined" path. -/
def undefinedCellTable : ℚ → List (Option ℚ) := fun _ => [none]

/-- Loop invariant of the CPython `bisect_right` loop: the result lies in
`[lo, hi]`, every element strictly left of it is `≤ x`, and the element at
the result (if any) is `> x`.  No sortedness is needed for this much. -/
theorem bisectAux_spec (a : List ℚ) (x : ℚ) :
    ∀ fuel lo hi, hi - lo ≤ fuel → lo ≤ hi → hi ≤ a.length →
    (lo = 0 ∨ a.getD (lo - 1) 0 ≤ x) → (hi = a.length ∨ x < a.getD hi 0) →
    lo ≤ bisectAux a x fuel lo hi ∧ bisectAux a x fuel lo hi ≤ hi ∧
      (bisectAux a x fuel lo hi = 0 ∨ a.getD (bisectAux a x fuel lo hi - 1) 0 ≤ x) ∧
      (bisectAux a x fuel lo hi = a.length ∨ x < a.getD (bisectAux a x fuel lo hi) 0) := by
  intro fuel
  induction fuel with
  | zero =>
    intro lo hi hfuel hlohi _hhi hlo hhi2
    have heq : lo = hi := by omega
    exact ⟨le_refl _, hlohi, hlo, heq ▸ hhi2⟩
  | succ n ih =>
    intro lo hi hfuel hlohi hhi hlo hhi2
    by_cases hlh : lo < hi
    · by_cases hcmp : x < a.getD ((lo + hi) / 2) 0
      · have hrec := ih lo ((lo + hi) / 2) (by omega) (by omega) (by omega) hlo
          (Or.inr hcmp)
        simp only [bisectAux, if_pos hlh, if_pos hcmp]
        exact ⟨hrec.1, le_trans hrec.2.1 (by omega), hrec.2.2.1, hrec.2.2.2⟩
      · have hle : a.getD ((lo + hi) / 2) 0 ≤ x := not_lt.mp hcmp
        have hrec := ih ((lo + hi) / 2 + 1) hi (by omega) (by omega) hhi
          (Or.inr (by simpa using hle)) hhi2
        simp only [bisectAux, if_pos hlh, if_neg hcmp]
        exact ⟨le_trans (by omega) hrec.1, hrec.2.1, hrec.2.2.1, hrec.2.2.2⟩
    · have heq : lo = hi := by omega
      simp only [bisectAux, if_neg hlh]
      exact ⟨le_refl _, hlohi, hlo, heq ▸ hhi2⟩

/-- `bisect_right` facts in the interior case used by `locate`: the
result is a valid interior index, the element before it is `≤ x` and the
element at it is `> x`. -/
theorem bisect_right_interior (axis : List ℚ) (x : ℚ) (hne : axis ≠ [])
    (hx0 : axis.getD 0 0 < x) (hxl : x < axis.getD (axis.length - 1) 0) :
    1 ≤ bisect_right axis x ∧ bisect_right axis x < axis.length ∧
      axis.getD (bisect_right axis x - 1) 0 ≤ x ∧
      x < axis.getD (bisect_right axis x) 0 := by
  have hlen : 0 < axis.length := List.length_pos.mpr hne
  have hspec := bisectAux_spec axis x axis.length 0 axis.length (by omega) (by omega)
    le_rfl (Or.inl rfl) (Or.inl rfl)
  rw [show bisectAux axis x axis.length 0 axis.length = bisect_right axis x from rfl]
    at hspec
  obtain ⟨_h0, hrle, hinv1, hinv2⟩ := hspec
  have hne0 : bisect_right axis x ≠ 0 := by
    intro h
    rcases hinv2 with h' | h'
    · omega
    · rw [h] at h'; linarith
  have hltlen : bisect_right axis x < axis.length := by
    rcases hinv1 with h' | h'
    · exact absurd h' hne0
    · by_contra hge
      have : bisect_right axis x = axis.length := by omega
      rw [this] at h'
      linarith
  refine ⟨by omega, hltlen, ?_, ?_⟩
  · rcases hinv1 with h' | h'
    · exact absurd h' hne0
    · exact h'
  · rcases hinv2 with h' | h'
    · omega
    · exact h'

/-- What `locate` guarantees on any non-empty axis: valid indices,
returned values are the axis entries at those indices, and either the
bracket is degenerate or it encloses the query. -/
theorem locate_mem (axis : List ℚ) (x : ℚ) (hne : axis ≠ []) :
    ∃ i0 i1, locate axis x = (i0, i1, axis.getD i0 0, axis.getD i1 0) ∧
      i0 < axis.length ∧ i1 < axis.length ∧
      (axis.getD i0 0 = axis.getD i1 0 ∨
        (axis.getD i0 0 ≤ x ∧ x ≤ axis.getD i1 0)) := by
  have hlen : 0 < axis.length := List.length_pos.mpr hne
  unfold locate
  by_cases h1 : x ≤ axis.getD 0 0
  · rw [if_pos h1]
    exact ⟨0, 0, rfl, hlen, hlen, Or.inl rfl⟩
  · rw [if_neg h1]
    by_cases h2 : axis.getD (axis.length - 1) 0 ≤ x
    · rw [if_pos h2]
      exact ⟨axis.length - 1, axis.length - 1, rfl, by omega, by omega, Or.inl rfl⟩
    · rw [if_neg h2]
      obtain ⟨h1r, hrlt, hle, hlt⟩ := bisect_right_interior axis x hne
        (not_le.mp h1) (not_le.mp h2)
      exact ⟨bisect_right axis x - 1, bisect_right axis x, rfl, by omega, hrlt,
        Or.inr ⟨hle, le_of_lt hlt⟩⟩

/-- `interp1` with NaN at both interpolands is NaN, whatever the axis
values (relevant because utils/interpolation.py has no all-NaN check). -/
theorem interp1_none (x x0 x1 : ℚ) : interp1 x x0 x1 none none = none := by
  unfold interp1
  split <;> rfl

/-- If the query is enclosed by the bracket and both interpolands are
(either NaN or) at least 20, a defined `interp1` result is at least 20. -/
theorem interp1_lb (x x0 x1 : ℚ) (y0 y1 : Option ℚ) (hx0 : x0 ≤ x) (hx1 : x ≤ x1)
    (h0 : ∀ a, y0 = some a → 20 ≤ a) (h1 : ∀ b, y1 = some b → 20 ≤ b) :
    ∀ v, interp1 x x0 x1 y0 y1 = some v → 20 ≤ v := by
  intro v hv
  unfold interp1 at hv
  by_cases hx : x1 = x0
  · rw [if_pos hx] at hv
    exact h0 v hv
  · rw [if_neg hx] at hv
    cases y0 with
    | none => cases hv
    | some a =>
      cases y1 with
      | none => cases hv
      | some b =>
        have ha : 20 ≤ a := h0 a rfl
        have hb : 20 ≤ b := h1 b rfl
        have hlt : x0 < x1 := lt_of_le_of_ne (le_trans hx0 hx1) (Ne.symm hx)
        have ht0 : 0 ≤ (x - x0) / (x1 - x0) :=
          div_nonneg (by linarith) (by linarith)
        have ht1 : (x - x0) / (x1 - x0) ≤ 1 := by
          rw [div_le_one (by linarith)]
          linarith
        simp only [Option.some.injEq] at hv
        rw [← hv]
        nlinarith [mul_nonneg (by linarith : (0:ℚ) ≤ a - 20)
            (by linarith : (0:ℚ) ≤ 1 - (x - x0) / (x1 - x0)),
          mul_nonneg (by linarith : (0:ℚ) ≤ b - 20) ht0]

/-- A `getD` read below the length is a member of the list. -/
theorem getD_mem_opt (l : List (Option ℚ)) (i : ℕ) (h : i < l.length) :
    l.getD i none ∈ l := by
  rw [List.getD_eq_getElem l none h]
  exact List.getElem_mem h

/-- A `getD` read below the length is a member of the list (rational axes). -/
theorem getD_mem_rat (l : List ℚ) (i : ℕ) (h : i < l.length) :
    l.getD i 0 ∈ l := by
  rw [List.getD_eq_getElem l 0 h]
  exact List.getElem_mem h

/-- If every defined cell of every row at a temperature on the axis is at
least 20, then every defined result of the per-aircraft bilinear
interpolator is at least 20 (the interpolator only forms convex
combinations of corner cells). -/
theorem bilinearModule_lb (TEMPS ALTS : List ℚ) (rows : ℚ → List (Option ℚ))
    (hT : TEMPS ≠ []) (hA : ALTS ≠ [])
    (hbound : ∀ T ∈ TEMPS, ∀ q ∈ rows T, 20 ≤ q.getD 20) :
    ∀ A T v, bilinearModule TEMPS ALTS rows A T = some v → 20 ≤ v := by
  intro A T v hv
  obtain ⟨r0, r1, hlocT, hr0len, hr1len, hTbr⟩ := locate_mem TEMPS T hT
  obtain ⟨c0, c1, hlocA, hc0len, hc1len, hAbr⟩ := locate_mem ALTS A hA
  have hcorner : ∀ j c : ℕ, j < TEMPS.length →
      ∀ a, (rows (TEMPS.getD j 0)).getD c none = some a → 20 ≤ a := by
    intro j c hj a ha
    have hmem : TEMPS.getD j 0 ∈ TEMPS := getD_mem_rat TEMPS j hj
    by_cases hc : c < (rows (TEMPS.getD j 0)).length
    · have hqmem := getD_mem_opt (rows (TEMPS.getD j 0)) c hc
      have hq := hbound _ hmem _ hqmem
      rw [ha] at hq
      simpa using hq
    · rw [List.getD_eq_default _ none (le_of_not_lt hc)] at ha
      cases ha
  unfold bilinearModule at hv
  rw [hlocT, hlocA] at hv
  dsimp only at hv
  split at hv
  · cases hv
  · split at hv
    · exact hcorner r0 c0 hr0len v hv
    · split at hv
      · rename_i hnot hTT
        have hAne : ALTS.getD c1 0 ≠ ALTS.getD c0 0 := fun h => hnot ⟨hTT, h⟩
        rcases hAbr with h | h
        · exact absurd h.symm hAne
        · exact interp1_lb A (ALTS.getD c0 0) (ALTS.getD c1 0) _ _ h.1 h.2
            (fun a ha => hcorner r0 c0 hr0len a ha)
            (fun b hb => hcorner r0 c1 hr0len b hb) v hv
      · split at hv
        · rename_i hTT _
          rcases hTbr with h | h
          · exact absurd h.symm hTT
          · exact interp1_lb T (TEMPS.getD r0 0) (TEMPS.getD r1 0) _ _ h.1 h.2
              (fun a ha => hcorner r0 c0 hr0len a ha)
              (fun b hb => hcorner r1 c0 hr1len b hb) v hv
        · rename_i hTT hAA
          rcases hTbr with h | h
          · exact absurd h.symm hTT
          · rcases hAbr with h' | h'
            · exact absurd h'.symm hAA
            · exact interp1_lb T (TEMPS.getD r0 0) (TEMPS.getD r1 0) _ _ h.1 h.2
                (fun a ha => interp1_lb A (ALTS.getD c0 0) (ALTS.getD c1 0) _ _
                  h'.1 h'.2 (fun p hp => hcorner r0 c0 hr0len p hp)
                  (fun q hq => hcorner r0 c1 hr0len q hq) a ha)
                (fun b hb => interp1_lb A (ALTS.getD c0 0) (ALTS.getD c1 0) _ _
                  h'.1 h'.2 (fun p hp => hcorner r1 c0 hr1len p hp)
                  (fun q hq => hcorner r1 c1 hr1len q hq) b hb) v hv

/-- Evaluation of `_apply_derate_from_max` at the TO1 mode string. -/
theorem apply_derate_to1 (w : ℚ) :
    apply_derate_from_max (some w) "TO1" = some (20 + (w - 20) * (9/10)) := by
  simp only [apply_derate_from_max]
  rw [if_pos (by decide)]

/-- Evaluation of `_apply_derate_from_max` at the D-TO1 mode string. -/
theorem apply_derate_dto1 (w : ℚ) :
    apply_derate_from_max (some w) "D-TO1" = some (20 + (w - 20) * (9/10)) := by
  simp only [apply_derate_from_max]
  rw [if_pos (by decide)]

/-- Evaluation of `_apply_derate_from_max` at the TO2 mode string. -/
theorem apply_derate_to2 (w : ℚ) :
    apply_derate_from_max (some w) "TO2" = some (20 + (w - 20) * (8/10)) := by
  simp only [apply_derate_from_max]
  rw [if_neg (by decide), if_pos (by decide)]

/-- Evaluation of `_apply_derate_from_max` at the D-TO2 mode string. -/
theorem apply_derate_dto2 (w : ℚ) :
    apply_derate_from_max (some w) "D-TO2" = some (20 + (w - 20) * (8/10)) := by
  simp only [apply_derate_from_max]
  rw [if_neg (by decide), if_pos (by decide)]

/-- `_apply_derate_from_max` propagates NaN for every mode. -/
theorem apply_derate_none (mode : String) :
    apply_derate_from_max none mode = none := rfl

/-- `_apply_derate_from_max` with mode "MAX" is the identity (factor 1). -/
theorem apply_derate_max_eq (b : Option ℚ) :
    apply_derate_from_max b "MAX" = b := by
  cases b with
  | none => rfl
  | some w =>
    simp only [apply_derate_from_max]
    rw [if_neg (by decide), if_neg (by decide)]
    congr 1
    ring

/-- Concrete locate: the 777 temperature axis clamps at 60 °C (grid end). -/
theorem locate_772T_60 : locate TEMP_ROWS_C_772 60 = (16, 16, 60, 60) := by decide

/-- Concrete locate: the 777 altitude axis clamps at 9000 ft (grid end). -/
theorem locate_772A_9000 : locate ALT_COLS_FT_772 9000 = (10, 10, 9000, 9000) := by decide

/-- At (9000 ft, 60 °C) all four 777 MAX corners are the blank grid cell. -/
theorem corners_772_9000_60 :
    moduleCorners TEMP_ROWS_C_772 ALT_COLS_FT_772 N1_ROWS_777_MAX 9000 60 =
      (none, none, none, none) := by decide

/-- All four corners of the one-cell undefined table are undefined under
the generic corner fetch. -/
theorem corners_undefined_cell :
    genericCorners undefinedCellTable 0 0 [0] [0] = (none, none, none, none) := by
  norm_num [genericCorners, locate, undefinedCellTable]

/-- The 777 MAX lookup at (9000 ft, 60 °C) is undefined. -/
theorem n1_772_max_9000_60 : n1_772_max 9000 60 = none := by
  show bilinearModule TEMP_ROWS_C_772 ALT_COLS_FT_772 N1_ROWS_777_MAX 9000 60 = none
  unfold bilinearModule
  rw [locate_772T_60, locate_772A_9000]
  norm_num [N1_ROWS_777_MAX]

/-- The generic interpolator on the example table at (500, 5): the
altitude query is divided by 1000, giving 81.501. -/
theorem bilinear_example_500 :
    bilinear exampleTable 500 5 [0, 1000] [0, 10] = some (81501/1000) := by
  have hlt : locate [0, 10] (5:ℚ) = (0, 1, 0, 10) := by decide
  have hla : locate [0, 1000] ((500:ℚ)/1000) = (0, 1, 0, 1000) := by
    norm_num [locate, bisect_right, bisectAux]
  unfold bilinear
  rw [hlt, hla]
  norm_num [exampleTable, interp1]

/-- The generic interpolator returns the bilinear average 82.5 when the
altitude query is fed as 500000 (1000 times the axis units). -/
theorem bilinear_example_500000 :
    bilinear exampleTable 500000 5 [0, 1000] [0, 10] = some (825/10) := by
  have hlt : locate [0, 10] (5:ℚ) = (0, 1, 0, 10) := by decide
  have hla : locate [0, 1000] ((500000:ℚ)/1000) = (0, 1, 0, 1000) := by
    norm_num [locate, bisect_right, bisectAux]
  unfold bilinear
  rw [hlt, hla]
  norm_num [exampleTable, interp1]

/-- The per-aircraft interpolation algorithm (raw altitude) on the
example table yields the bilinear average 82.5 at (500, 5). -/
theorem bilinearModule_example :
    bilinearModule [0, 10] [0, 1000] exampleTable 500 5 = some (825/10) := by
  have hlt : locate [0, 10] (5:ℚ) = (0, 1, 0, 10) := by decide
  have hla : locate [0, 1000] (500:ℚ) = (0, 1, 0, 1000) := by decide
  unfold bilinearModule
  rw [hlt, hla]
  norm_num [exampleTable, interp1]
  simp

/-- C1: for every performance table and query point, if all four
interpolation corner cells selected by the two axis locates are
undefined, the bilinear interpolation result is undefined.  This holds
for the per-aircraft interpolator (`_bilinear_777` of b772N1.py and the
`_bilinear` copies, which check the four corners explicitly before any
branch, including the degenerate single-cell path) and for the generic
`bilinear` of utils/interpolation.py (which has no explicit check but
propagates NaN through every branch, including the degenerate
single-cell branch that returns the corner itself). -/
theorem bilinear_all_corners_undefined :
    (∀ (TEMPS ALTS : List ℚ) (rows : ℚ → List (Option ℚ)) (A T : ℚ),
      moduleCorners TEMPS ALTS rows A T = (none, none, none, none) →
      bilinearModule TEMPS ALTS rows A T = none) ∧
    (∀ (table : ℚ → List (Option ℚ)) (A T : ℚ) (ALT_COLS TEMP_ROWS : List ℚ),
      genericCorners table A T ALT_COLS TEMP_ROWS = (none, none, none, none) →
      bilinear table A T ALT_COLS TEMP_ROWS = none) := by
  constructor
  · intro TEMPS ALTS rows A T h
    unfold moduleCorners at h
    unfold bilinearModule
    rcases hlt : locate TEMPS T with ⟨r0, r1, T0, T1⟩
    rcases hla : locate ALTS A with ⟨c0, c1, A0, A1⟩
    rw [hlt, hla] at h
    dsimp only at h
    rw [Prod.mk.injEq, Prod.mk.injEq, Prod.mk.injEq] at h
    obtain ⟨h11, h21, h12, h22⟩ := h
    dsimp only
    rw [h11, h21, h12, h22]
    simp
  · intro table A T ALT_COLS TEMP_ROWS h
    unfold genericCorners at h
    unfold bilinear
    rcases hlt : locate TEMP_ROWS T with ⟨r0, r1, T0, T1⟩
    rcases hla : locate ALT_COLS (A / 1000) with ⟨c0, c1, A0, A1⟩
    rw [hlt, hla] at h
    dsimp only at h
    rw [Prod.mk.injEq, Prod.mk.injEq, Prod.mk.injEq] at h
    obtain ⟨h11, h21, h12, h22⟩ := h
    dsimp only
    rw [h11, h21, h12, h22]
    split
    · rfl
    · split
      · exact interp1_none _ _ _
      · split
        · exact interp1_none _ _ _
        · rw [interp1_none, interp1_none]

/-- Witness for C1: the 777 MAX table at the grid point (9000 ft, 60 °C)
has all four corners undefined (both locates are degenerate and land on a
blank cell), and both interpolators return undefined there; likewise the
one-cell undefined table under the generic interpolator. -/
theorem bilinear_all_corners_undefined_witness :
    (moduleCorners TEMP_ROWS_C_772 ALT_COLS_FT_772 N1_ROWS_777_MAX 9000 60 =
        (none, none, none, none) ∧
      bilinearModule TEMP_ROWS_C_772 ALT_COLS_FT_772 N1_ROWS_777_MAX 9000 60 = none) ∧
    (genericCorners undefinedCellTable 0 0 [0] [0] = (none, none, none, none) ∧
      bilinear undefinedCellTable 0 0 [0] [0] = none) :=
  ⟨⟨corners_772_9000_60,
      bilinear_all_corners_undefined.1 _ _ _ _ _ corners_772_9000_60⟩,
    ⟨corners_undefined_cell,
      bilinear_all_corners_undefined.2 _ _ _ _ _ corners_undefined_cell⟩⟩

/-- C3 counterexample: on the spec's example table (temperature axis
`[0, 10]`, altitude axis `[0, 1000]`, cells `{0: [80, 82], 10: [83, 85]}`)
the generic interpolator of utils/interpolation.py does NOT return 82.5
at query point (altitude 500, temperature 5). -/
theorem example_table_query_counterexample :
    bilinear exampleTable 500 5 [0, 1000] [0, 10] ≠ some (825/10) := by
  rw [bilinear_example_500]
  simp only [ne_eq, Option.some.injEq]
  norm_num

/-- C3 amended: the generic interpolator divides the altitude query by
1000 before locating and interpolating against the altitude axis, so the
example query (altitude 500, temperature 5) returns 81.501; the bilinear
average 82.5 is obtained at altitude input 500000 — or by the
per-aircraft interpolation algorithm, which uses the raw altitude. -/
theorem example_table_query_amended :
    bilinear exampleTable 500 5 [0, 1000] [0, 10] = some (81501/1000) ∧
    bilinear exampleTable 500000 5 [0, 1000] [0, 10] = some (825/10) ∧
    bilinearModule [0, 10] [0, 1000] exampleTable 500 5 = some (825/10) :=
  ⟨bilinear_example_500, bilinear_example_500000, bilinearModule_example⟩

/-- C4: for the scaling-based B777-200ER, a full-rated N1 of `n` derates
to `20 + (n - 20) * 0.9` under TO1/D-TO1 and to `20 + (n - 20) * 0.8`
under TO2/D-TO2, and an undefined full-rated lookup yields an undefined
derated result (never zero and never the idle value). -/
theorem derate_formula_772 :
    (∀ n : ℚ,
      apply_derate_from_max (some n) "TO1" = some (20 + (n - 20) * (9/10)) ∧
      apply_derate_from_max (some n) "D-TO1" = some (20 + (n - 20) * (9/10)) ∧
      apply_derate_from_max (some n) "TO2" = some (20 + (n - 20) * (8/10)) ∧
      apply_derate_from_max (some n) "D-TO2" = some (20 + (n - 20) * (8/10))) ∧
    (∀ mode, apply_derate_from_max none mode = none) ∧
    (∀ A T, n1_772_max A T = none →
      n1_772 A T "TO1" = none ∧ n1_772 A T "TO2" = none) := by
  refine ⟨fun n => ⟨apply_derate_to1 n, apply_derate_dto1 n,
    apply_derate_to2 n, apply_derate_dto2 n⟩, apply_derate_none, ?_⟩
  intro A T h
  constructor <;> simp only [n1_772, h] <;> exact apply_derate_none _

/-- Witness for C4: at (9000 ft, 60 °C) the full-rated 777 lookup is
undefined, and both derates propagate the undefined result. -/
theorem derate_formula_772_witness :
    n1_772_max 9000 60 = none ∧
    n1_772 9000 60 "TO1" = none ∧ n1_772 9000 60 "TO2" = none :=
  ⟨n1_772_max_9000_60, derate_formula_772.2.2 9000 60 n1_772_max_9000_60⟩

/-- Row bound for the 777 MAX table at -50 degrees C. -/
theorem row772_lb_0 : ∀ q ∈ N1_ROWS_777_MAX (-50), 20 ≤ q.getD 20 := by
  norm_num [N1_ROWS_777_MAX, List.forall_mem_cons]

/-- Row bound for the 777 MAX table at -40 degrees C. -/
theorem row772_lb_1 : ∀ q ∈ N1_ROWS_777_MAX (-40), 20 ≤ q.getD 20 := by
  norm_num [N1_ROWS_777_MAX, List.forall_mem_cons]

/-- Row bound for the 777 MAX table at -30 degrees C. -/
theorem row772_lb_2 : ∀ q ∈ N1_ROWS_777_MAX (-30), 20 ≤ q.getD 20 := by
  norm_num [N1_ROWS_777_MAX, List.forall_mem_cons]

/-- Row bound for the 777 MAX table at -20 degrees C. -/
theorem row772_lb_3 : ∀ q ∈ N1_ROWS_777_MAX (-20), 20 ≤ q.getD 20 := by
  norm_num [N1_ROWS_777_MAX, List.forall_mem_cons]

/-- Row bound for the 777 MAX table at -10 degrees C. -/
theorem row772_lb_4 : ∀ q ∈ N1_ROWS_777_MAX (-10), 20 ≤ q.getD 20 := by
  norm_num [N1_ROWS_777_MAX, List.forall_mem_cons]

/-- Row bound for the 777 MAX table at 0 degrees C. -/
theorem row772_lb_5 : ∀ q ∈ N1_ROWS_777_MAX 0, 20 ≤ q.getD 20 := by
  norm_num [N1_ROWS_777_MAX, List.forall_mem_cons]

/-- Row bound for the 777 MAX table at 5 degrees C. -/
theorem row772_lb_6 : ∀ q ∈ N1_ROWS_777_MAX 5, 20 ≤ q.getD 20 := by
  norm_num [N1_ROWS_777_MAX, List.forall_mem_cons]

/-- Row bound for the 777 MAX table at 10 degrees C. -/
theorem row772_lb_7 : ∀ q ∈ N1_ROWS_777_MAX 10, 20 ≤ q.getD 20 := by
  norm_num [N1_ROWS_777_MAX, List.forall_mem_cons]

/-- Row bound for the 777 MAX table at 15 degrees C. -/
theorem row772_lb_8 : ∀ q ∈ N1_ROWS_777_MAX 15, 20 ≤ q.getD 20 := by
  norm_num [N1_ROWS_777_MAX, List.forall_mem_cons]

/-- Row bound for the 777 MAX table at 20 degrees C. -/
theorem row772_lb_9 : ∀ q ∈ N1_ROWS_777_MAX 20, 20 ≤ q.getD 20 := by
  norm_num [N1_ROWS_777_MAX, List.forall_mem_cons]

/-- Row bound for the 777 MAX table at 25 degrees C. -/
theorem row772_lb_10 : ∀ q ∈ N1_ROWS_777_MAX 25, 20 ≤ q.getD 20 := by
  norm_num [N1_ROWS_777_MAX, List.forall_mem_cons]

/-- Row bound for the 777 MAX table at 30 degrees C. -/
theorem row772_lb_11 : ∀ q ∈ N1_ROWS_777_MAX 30, 20 ≤ q.getD 20 := by
  norm_num [N1_ROWS_777_MAX, List.forall_mem_cons]

/-- Row bound for the 777 MAX table at 35 degrees C. -/
theorem row772_lb_12 : ∀ q ∈ N1_ROWS_777_MAX 35, 20 ≤ q.getD 20 := by
  norm_num [N1_ROWS_777_MAX, List.forall_mem_cons]

/-- Row bound for the 777 MAX table at 40 degrees C. -/
theorem row772_lb_13 : ∀ q ∈ N1_ROWS_777_MAX 40, 20 ≤ q.getD 20 := by
  norm_num [N1_ROWS_777_MAX, List.forall_mem_cons]

/-- Row bound for the 777 MAX table at 45 degrees C. -/
theorem row772_lb_14 : ∀ q ∈ N1_ROWS_777_MAX 45, 20 ≤ q.getD 20 := by
  norm_num [N1_ROWS_777_MAX, List.forall_mem_cons]

/-- Row bound for the 777 MAX table at 50 degrees C. -/
theorem row772_lb_15 : ∀ q ∈ N1_ROWS_777_MAX 50, 20 ≤ q.getD 20 := by
  norm_num [N1_ROWS_777_MAX, List.forall_mem_cons]

/-- Row bound for the 777 MAX table at 60 degrees C. -/
theorem row772_lb_16 : ∀ q ∈ N1_ROWS_777_MAX 60, 20 ≤ q.getD 20 := by
  norm_num [N1_ROWS_777_MAX, List.forall_mem_cons]

/-- Every defined cell of the 777 MAX table is at least 20 (the idle
baseline), row by row across the temperature axis. -/
theorem N1_ROWS_777_MAX_lb :
    ∀ T ∈ TEMP_ROWS_C_772, ∀ q ∈ N1_ROWS_777_MAX T, 20 ≤ q.getD 20 := by
  intro T hT
  simp only [TEMP_ROWS_C_772, List.mem_cons, List.not_mem_nil, or_false] at hT
  rcases hT with rfl | rfl | rfl | rfl | rfl | rfl | rfl | rfl | rfl | rfl | rfl | rfl | rfl | rfl | rfl | rfl | rfl
  exacts [row772_lb_0, row772_lb_1, row772_lb_2, row772_lb_3, row772_lb_4, row772_lb_5, row772_lb_6, row772_lb_7, row772_lb_8, row772_lb_9, row772_lb_10, row772_lb_11, row772_lb_12, row772_lb_13, row772_lb_14, row772_lb_15, row772_lb_16]

/-- The 777 MAX lookup at the grid point (0 ft, 15 °C) is exactly the
table cell 101.0. -/
theorem n1_772_max_0_15 : n1_772_max 0 15 = some 101 := by
  have hlt : locate TEMP_ROWS_C_772 15 = (8, 9, 15, 20) := by decide
  have hla : locate ALT_COLS_FT_772 0 = (1, 2, 0, 1000) := by decide
  show bilinearModule TEMP_ROWS_C_772 ALT_COLS_FT_772 N1_ROWS_777_MAX 0 15 = some 101
  unfold bilinearModule
  rw [hlt, hla]
  norm_num [N1_ROWS_777_MAX, interp1]
  simp

/-- The 777 full-rated N1 at (0 ft, 15 °C) through the mode dispatch. -/
theorem n1_772_MAX_0_15 : n1_772 0 15 "MAX" = some 101 := by
  show apply_derate_from_max (n1_772_max 0 15) "MAX" = some 101
  rw [apply_derate_max_eq, n1_772_max_0_15]

/-- C5: wherever the 777-200ER full-rated N1 is defined, the derates are
defined too and `FullRated >= TO1 >= TO2` (scaling the excess over the
idle baseline 20 by 1, 0.9, 0.8 preserves the ordering because every
defined full-rated value is at least 20). -/
theorem derate_ordering_772 (A T v : ℚ) (h : n1_772 A T "MAX" = some v) :
    ∃ v1 v2, n1_772 A T "TO1" = some v1 ∧ n1_772 A T "TO2" = some v2 ∧
      v1 ≤ v ∧ v2 ≤ v1 := by
  cases hbase : n1_772_max A T with
  | none =>
    exfalso
    simp only [n1_772, hbase] at h
    rw [apply_derate_none] at h
    exact Option.noConfusion h
  | some w =>
    have hw20 : 20 ≤ w := bilinearModule_lb TEMP_ROWS_C_772 ALT_COLS_FT_772
      N1_ROWS_777_MAX (by decide) (by decide) N1_ROWS_777_MAX_lb A T w hbase
    have hveq : v = w := by
      simp only [n1_772] at h
      rw [apply_derate_max_eq, hbase] at h
      injection h with h'
      exact h'.symm
    refine ⟨20 + (w - 20) * (9/10), 20 + (w - 20) * (8/10), ?_, ?_, ?_, ?_⟩
    · simp only [n1_772, hbase]
      exact apply_derate_to1 w
    · simp only [n1_772, hbase]
      exact apply_derate_to2 w
    · rw [hveq]
      linarith
    · linarith

/-- Witness for C5 at the grid point (0 ft, 15 °C), where the full-rated
N1 is 101. -/
theorem derate_ordering_772_witness :
    n1_772 0 15 "MAX" = some 101 ∧
    ∃ v1 v2, n1_772 0 15 "TO1" = some v1 ∧ n1_772 0 15 "TO2" = some v2 ∧
      v1 ≤ 101 ∧ v2 ≤ v1 :=
  ⟨n1_772_MAX_0_15, derate_ordering_772 0 15 101 n1_772_MAX_0_15⟩

/-- C2: on a non-empty strictly increasing axis, `locate` clamps to a
degenerate bracket at either end, and otherwise returns the tight
bracketing pair `(i1 - 1, i1, axis[i1-1], axis[i1])` where `i1` is the
index of the first axis element strictly greater than the query and
`axis[i1-1] <= x <= axis[i1]`. -/
theorem locate_bracketing_spec (axis : List ℚ) (x : ℚ) (hne : axis ≠ [])
    (hmono : axis.Chain' (· < ·)) :
    (x ≤ axis.getD 0 0 → locate axis x = (0, 0, axis.getD 0 0, axis.getD 0 0)) ∧
    (axis.getD (axis.length - 1) 0 ≤ x →
      locate axis x = (axis.length - 1, axis.length - 1,
        axis.getD (axis.length - 1) 0, axis.getD (axis.length - 1) 0)) ∧
    (axis.getD 0 0 < x → x < axis.getD (axis.length - 1) 0 →
      ∃ i1, locate axis x = (i1 - 1, i1, axis.getD (i1 - 1) 0, axis.getD i1 0) ∧
        1 ≤ i1 ∧ i1 < axis.length ∧
        axis.getD (i1 - 1) 0 ≤ x ∧ x ≤ axis.getD i1 0 ∧
        x < axis.getD i1 0 ∧ ∀ j < i1, axis.getD j 0 ≤ x) := by
  have hlen : 0 < axis.length := List.length_pos.mpr hne
  have hp : axis.Pairwise (· < ·) := List.chain'_iff_pairwise.mp hmono
  have hgetlt : ∀ i j, i < j → j < axis.length →
      axis.getD i 0 < axis.getD j 0 := by
    intro i j hij hj
    have h := List.pairwise_iff_get.mp hp ⟨i, by omega⟩ ⟨j, hj⟩
      (by simpa [Fin.lt_def] using hij)
    rw [List.getD_eq_getElem axis 0 (by omega : i < axis.length),
      List.getD_eq_getElem axis 0 hj]
    simpa [List.get_eq_getElem] using h
  refine ⟨?_, ?_, ?_⟩
  · intro h
    unfold locate
    rw [if_pos h]
  · intro h
    unfold locate
    by_cases h1 : x ≤ axis.getD 0 0
    · rw [if_pos h1]
      by_cases hl1 : axis.length = 1
      · rw [hl1]
      · exfalso
        have h01 : axis.getD 0 0 < axis.getD (axis.length - 1) 0 :=
          hgetlt 0 (axis.length - 1) (by omega) (by omega)
        linarith
    · rw [if_neg h1, if_pos h]
  · intro hx0 hxl
    have h1 : ¬ x ≤ axis.getD 0 0 := not_le.mpr hx0
    have h2 : ¬ axis.getD (axis.length - 1) 0 ≤ x := not_le.mpr hxl
    obtain ⟨hge1, hlt, hle, hgt⟩ := bisect_right_interior axis x hne hx0 hxl
    refine ⟨bisect_right axis x, ?_, hge1, hlt, hle, le_of_lt hgt, hgt, ?_⟩
    · unfold locate
      rw [if_neg h1, if_neg h2]
    · intro j hj
      by_cases hj' : j = bisect_right axis x - 1
      · rw [hj']
        exact hle
      · have hjlt : axis.getD j 0 < axis.getD (bisect_right axis x - 1) 0 :=
          hgetlt j (bisect_right axis x - 1) (by omega) (by omega)
        linarith

/-- Witness for C2 on the axis `[0, 10, 20]` at query 5: the interior
case produces a tight bracket with all the stated properties. -/
theorem locate_bracketing_spec_witness :
    ∃ i1, locate [0, 10, 20] (5:ℚ) =
        (i1 - 1, i1, ([0, 10, 20] : List ℚ).getD (i1 - 1) 0,
          ([0, 10, 20] : List ℚ).getD i1 0) ∧
      1 ≤ i1 ∧ i1 < ([0, 10, 20] : List ℚ).length ∧
      ([0, 10, 20] : List ℚ).getD (i1 - 1) 0 ≤ 5 ∧
      (5:ℚ) ≤ ([0, 10, 20] : List ℚ).getD i1 0 ∧
      (5:ℚ) < ([0, 10, 20] : List ℚ).getD i1 0 ∧
      ∀ j < i1, ([0, 10, 20] : List ℚ).getD j 0 ≤ 5 :=
  (locate_bracketing_spec [0, 10, 20] 5 (by decide)
    (by norm_num [List.chain'_cons])).2.2 (by decide) (by decide)

/-- The A220 MAX lookup at the grid point (0 ft, 30 °C) is 89.2. -/
theorem n1_a223_max_0_30 : n1_a223_max 0 30 = some (446/5) := by
  have hlt : locate TEMP_ROWS_C_A223 30 = (17, 18, 30, 35) := by decide
  have hla : locate ALT_COLS_FT_A223 0 = (1, 2, 0, 1000) := by decide
  show bilinearModule TEMP_ROWS_C_A223 ALT_COLS_FT_A223 N1_ROWS_A223_MAX 0 30 =
    some (446/5)
  unfold bilinearModule
  rw [hlt, hla]
  norm_num [N1_ROWS_A223_MAX, interp1]
  simp

/-- The A220 MAX lookup at the grid point (0 ft, 0 °C) is 84.6. -/
theorem n1_a223_max_0_0 : n1_a223_max 0 0 = some (423/5) := by
  have hlt : locate TEMP_ROWS_C_A223 0 = (11, 12, 0, 5) := by decide
  have hla : locate ALT_COLS_FT_A223 0 = (1, 2, 0, 1000) := by decide
  show bilinearModule TEMP_ROWS_C_A223 ALT_COLS_FT_A223 N1_ROWS_A223_MAX 0 0 =
    some (423/5)
  unfold bilinearModule
  rw [hlt, hla]
  norm_num [N1_ROWS_A223_MAX, interp1]
  simp

/-- `n1_a223` with the literal mode "MAX" selects the MAX table. -/
theorem n1_a223_MAX_eq (A T : ℚ) : n1_a223 A T "MAX" = n1_a223_max A T := rfl

/-- C6 (evaluation at the failing input): on the A220-300, mode "FLEX"
with a supplied assumed temperature of 0 °C is computed at the outside
air temperature (the `and sel_temp_C:` truthiness guard drops 0.0), and
the OAT-30 °C result differs from the assumed-0 °C result; the
B777-200ER handles the same input correctly (`is not None`), looking up
MAX at the assumed temperature. -/
theorem a223_flex_zero_sel_temp_eval :
    compute_takeoff_n1_a223 0 30 "FLEX" (some 0) = n1_and_slider_a223 "MAX" 0 30 ∧
    n1_and_slider_a223 "MAX" 0 30 ≠ n1_and_slider_a223 "MAX" 0 0 ∧
    compute_takeoff_n1_772 0 30 "FLEX" (some 0) = n1_and_slider_772 "MAX" 0 0 := by
  refine ⟨rfl, ?_, rfl⟩
  intro heq
  have hfst := congrArg Prod.fst heq
  simp only [n1_and_slider_a223] at hfst
  rw [n1_a223_MAX_eq, n1_a223_MAX_eq, n1_a223_max_0_30, n1_a223_max_0_0] at hfst
  injection hfst with hval
  norm_num at hval

/-- Clamp-and-rescale core of every slider mapping: the output is in
[0, 100], is 0 at and below `lo`, and is 100 at and above `hi`. -/
theorem slider_clamp_core (lo hi n : ℚ) (hlh : lo < hi) :
    0 ≤ max 0 (min 100 ((max lo (min hi n) - lo) / (hi - lo) * 100)) ∧
    max 0 (min 100 ((max lo (min hi n) - lo) / (hi - lo) * 100)) ≤ 100 ∧
    (n ≤ lo → max 0 (min 100 ((max lo (min hi n) - lo) / (hi - lo) * 100)) = 0) ∧
    (hi ≤ n → max 0 (min 100 ((max lo (min hi n) - lo) / (hi - lo) * 100)) = 100) := by
  refine ⟨le_max_left _ _, max_le (by norm_num) (min_le_left _ _), ?_, ?_⟩
  · intro hn
    rw [min_eq_right (le_trans hn (le_of_lt hlh)), max_eq_left hn, sub_self,
      zero_div, zero_mul]
    norm_num [min_def, max_def]
  · intro hn
    rw [min_eq_left hn, max_eq_right (le_of_lt hlh),
      div_self (by intro h; rw [sub_eq_zero] at h; exact absurd h.symm (ne_of_lt hlh)),
      one_mul]
    norm_num [min_def, max_def]

/-- All four conjuncts of the slider contract, for a mapping that equals
the clamp-and-rescale formula with calibration `(lo, hi)`. -/
theorem slider_block (f : Option ℚ → Option ℚ) (lo hi : ℚ) (hlh : lo < hi)
    (hf : ∀ n, f (some n) =
      some (max 0 (min 100 ((max lo (min hi n) - lo) / (hi - lo) * 100)))) :
    ∀ n : ℚ,
      f (some n) =
        some (max 0 (min 100 ((max lo (min hi n) - lo) / (hi - lo) * 100))) ∧
      (∀ s, f (some n) = some s → 0 ≤ s ∧ s ≤ 100) ∧
      (n ≤ lo → f (some n) = some 0) ∧
      (hi ≤ n → f (some n) = some 100) := by
  intro n
  have hcore := slider_clamp_core lo hi n hlh
  refine ⟨hf n, ?_, ?_, ?_⟩
  · intro s hs
    rw [hf n] at hs
    injection hs with hs'
    rw [← hs']
    exact ⟨hcore.1, hcore.2.1⟩
  · intro hn
    rw [hf n, hcore.2.2.1 hn]
  · intro hn
    rw [hf n, hcore.2.2.2 hn]

/-- C7: each configured aircraft's slider mapping is the clamp-then-
rescale contract for its calibration constants — B777-200ER (20, 107),
A380-800 (17, 111), A220-300 (20, 101): the output is the formula value,
always lies in [0, 100], maps `lo` to exactly 0 and `hi` to exactly 100,
and clamps N1 values outside `[lo, hi]` instead of extrapolating. -/
theorem slider_contract_all_aircraft :
    (∀ n : ℚ,
      slider_from_n1_772 (some n) =
        some (max 0 (min 100 ((max 20 (min 107 n) - 20) / (107 - 20) * 100))) ∧
      (∀ s, slider_from_n1_772 (some n) = some s → 0 ≤ s ∧ s ≤ 100) ∧
      (n ≤ 20 → slider_from_n1_772 (some n) = some 0) ∧
      (107 ≤ n → slider_from_n1_772 (some n) = some 100)) ∧
    slider_from_n1_772 (some 20) = some 0 ∧
    slider_from_n1_772 (some 107) = some 100 ∧
    (∀ n : ℚ,
      slider_from_n1_a380 (some n) =
        some (max 0 (min 100 ((max 17 (min 111 n) - 17) / (111 - 17) * 100))) ∧
      (∀ s, slider_from_n1_a380 (some n) = some s → 0 ≤ s ∧ s ≤ 100) ∧
      (n ≤ 17 → slider_from_n1_a380 (some n) = some 0) ∧
      (111 ≤ n → slider_from_n1_a380 (some n) = some 100)) ∧
    slider_from_n1_a380 (some 17) = some 0 ∧
    slider_from_n1_a380 (some 111) = some 100 ∧
    (∀ n : ℚ,
      slider_from_n1_a223 (some n) =
        some (max 0 (min 100 ((max 20 (min 101 n) - 20) / (101 - 20) * 100))) ∧
      (∀ s, slider_from_n1_a223 (some n) = some s → 0 ≤ s ∧ s ≤ 100) ∧
      (n ≤ 20 → slider_from_n1_a223 (some n) = some 0) ∧
      (101 ≤ n → slider_from_n1_a223 (some n) = some 100)) ∧
    slider_from_n1_a223 (some 20) = some 0 ∧
    slider_from_n1_a223 (some 101) = some 100 := by
  have h772 := slider_block slider_from_n1_772 20 107 (by norm_num)
    (fun n => by simp only [slider_from_n1_772]; norm_num)
  have h380 := slider_block slider_from_n1_a380 17 111 (by norm_num)
    (fun n => by simp only [slider_from_n1_a380]; norm_num)
  have h223 := slider_block slider_from_n1_a223 20 101 (by norm_num)
    (fun n => by simp only [slider_from_n1_a223]; norm_num)
  exact ⟨h772, (h772 20).2.2.1 le_rfl, (h772 107).2.2.2 le_rfl,
    h380, (h380 17).2.2.1 le_rfl, (h380 111).2.2.2 le_rfl,
    h223, (h223 20).2.2.1 le_rfl, (h223 101).2.2.2 le_rfl⟩

/-- Witness for C7: clamping below range (B777), above range (A380), and
above range (A220) at concrete N1 inputs. -/
theorem slider_contract_all_aircraft_witness :
    slider_from_n1_772 (some 10) = some 0 ∧
    slider_from_n1_a380 (some 115) = some 100 ∧
    slider_from_n1_a223 (some 102) = some 100 := by
  obtain ⟨h772, -, -, h380, -, -, h223, -, -⟩ := slider_contract_all_aircraft
  exact ⟨(h772 10).2.2.1 (by norm_num), (h380 115).2.2.2 (by norm_num),
    (h223 102).2.2.2 (by norm_num)⟩

/-- Evaluation of `_apply_derate_from_max` at a mode whose uppercasing
is none of the four recognised derate strings: the factor is 1, exactly
as for "MAX". -/
theorem apply_derate_unrecognized (b : Option ℚ) (mode : String)
    (h1 : pyUpper mode ≠ "TO1") (h2 : pyUpper mode ≠ "D-TO1")
    (h3 : pyUpper mode ≠ "TO2") (h4 : pyUpper mode ≠ "D-TO2") :
    apply_derate_from_max b mode = apply_derate_from_max b "MAX" := by
  simp only [apply_derate_from_max]
  rw [if_neg (not_or.mpr ⟨h1, h2⟩), if_neg (not_or.mpr ⟨h3, h4⟩),
    if_neg (by decide), if_neg (by decide)]

/-- C9 counterexample: the dispatcher does NOT fail for an unknown
thrust mode — routing the B777-200ER with the unrecognised mode "TO9"
succeeds and returns exactly the full-rated (MAX) result, silently
substituting the full-rated table. -/
theorem unknown_mode_silently_full_rated :
    compute_takeoff_from_info (fun _ _ _ _ => (none, none)) "B777-200ER" 0 15
        none "TO9" none = Except.ok (some 101, some (2700/29)) ∧
    compute_takeoff_from_info (fun _ _ _ _ => (none, none)) "B777-200ER" 0 15
        none "MAX" none = Except.ok (some 101, some (2700/29)) := by
  have hslider : slider_from_n1_772 (some 101) = some (2700/29) := by
    norm_num [slider_from_n1_772, min_def, max_def]
  have hTO9 : n1_772 0 15 "TO9" = some 101 := by
    show apply_derate_from_max (n1_772_max 0 15) "TO9" = some 101
    rw [apply_derate_unrecognized _ _ (by decide) (by decide) (by decide) (by decide),
      apply_derate_max_eq, n1_772_max_0_15]
  constructor
  · show Except.ok (n1_and_slider_772 "TO9" 0 15) = _
    show Except.ok (n1_772 0 15 "TO9", slider_from_n1_772 (n1_772 0 15 "TO9")) = _
    rw [hTO9, hslider]
  · show Except.ok (n1_and_slider_772 "MAX" 0 15) = _
    show Except.ok (n1_772 0 15 "MAX", slider_from_n1_772 (n1_772 0 15 "MAX")) = _
    rw [n1_772_MAX_0_15, hslider]

/-- C9 amended: an unsupported aircraft type makes the dispatcher fail
with its configuration error (never silently picking a default
aircraft), but an unknown thrust mode does not fail: the per-aircraft
logic silently treats any unrecognised mode as full-rated (MAX). -/
theorem config_error_amended :
    (∀ (f : ℚ → ℚ → String → Option ℚ → Option ℚ × Option ℚ) (ac : String)
      (alt oat : ℚ) (mr : Option String) (mn : String) (st : Option ℚ),
      ac ∉ SUPPORTED_AIRCRAFT →
      compute_takeoff_from_info f ac alt oat mr mn st =
        Except.error ("compute_takeoff_from_info: aircraft \x27" ++ ac ++
          "\x27 is not in SUPPORTED_AIRCRAFT.")) ∧
    (∀ (A T : ℚ) (mode : String),
      pyUpper mode ≠ "TO1" → pyUpper mode ≠ "D-TO1" →
      pyUpper mode ≠ "TO2" → pyUpper mode ≠ "D-TO2" →
      n1_772 A T mode = n1_772 A T "MAX") := by
  constructor
  · intro f ac alt oat mr mn st h
    simp only [compute_takeoff_from_info, if_pos h]
  · intro A T mode h1 h2 h3 h4
    exact apply_derate_unrecognized _ _ h1 h2 h3 h4

/-- Witness for C9 amended: the aircraft "B747-8" is rejected with the
configuration error, and the unknown mode "TO9" silently computes the
full-rated value on the B777-200ER. -/
theorem config_error_amended_witness :
    compute_takeoff_from_info (fun _ _ _ _ => (none, none)) "B747-8" 0 15
        none "MAX" none =
      Except.error ("compute_takeoff_from_info: aircraft \x27" ++ "B747-8" ++
        "\x27 is not in SUPPORTED_AIRCRAFT.") ∧
    n1_772 0 15 "TO9" = n1_772 0 15 "MAX" :=
  ⟨config_error_amended.1 (fun _ _ _ _ => (none, none)) "B747-8" 0 15 none "MAX"
      none (by decide),
    config_error_amended.2 0 15 "TO9" (by decide) (by decide) (by decide)
      (by decide)⟩

/-- C10: the two global slider conversion functions of
src/utils/slider_math.py are mutually inverse on the calibrated range:
slider values in [0, 100] and N1 values in [20, 101] round-trip
exactly. -/
theorem slider_inverse_roundtrip :
    (∀ s : ℚ, 0 ≤ s → s ≤ 100 → n1_to_slider (slider_to_n1 (some s)) = some s) ∧
    (∀ n : ℚ, 20 ≤ n → n ≤ 101 → slider_to_n1 (n1_to_slider (some n)) = some n) := by
  constructor
  · intro s h0 h100
    simp only [slider_to_n1, n1_to_slider, Option.map_some']
    have hval : (20 + s / 100 * 81 - 20) / 81 * 100 = s := by ring
    rw [hval]
    have hmax : pymax (some s) (some 0) = some s := by
      simp only [pymax, pyGT]
      rw [if_neg (by simp only [decide_eq_true_eq]; exact not_lt.mpr h0)]
    have hmin : pymin (some s) (some 100) = some s := by
      simp only [pymin, pyLT]
      rw [if_neg (by simp only [decide_eq_true_eq]; exact not_lt.mpr h100)]
    rw [hmax, hmin]
  · intro n h20 h101
    have h0 : 0 ≤ (n - 20) / 81 * 100 :=
      mul_nonneg (div_nonneg (by linarith) (by norm_num)) (by norm_num)
    have h100 : (n - 20) / 81 * 100 ≤ 100 := by
      rw [div_mul_eq_mul_div, div_le_iff₀ (by norm_num : (0:ℚ) < 81)]
      linarith
    simp only [n1_to_slider, slider_to_n1, Option.map_some']
    have hmax : pymax (some ((n - 20) / 81 * 100)) (some 0) =
        some ((n - 20) / 81 * 100) := by
      simp only [pymax, pyGT]
      rw [if_neg (by simp only [decide_eq_true_eq]; exact not_lt.mpr h0)]
    have hmin : pymin (some ((n - 20) / 81 * 100)) (some 100) =
        some ((n - 20) / 81 * 100) := by
      simp only [pymin, pyLT]
      rw [if_neg (by simp only [decide_eq_true_eq]; exact not_lt.mpr h100)]
    rw [hmax, hmin, Option.map_some']
    congr 1
    ring

/-- Witness for C10: the round trips at slider 50 and at N1 60.5. -/
theorem slider_inverse_roundtrip_witness :
    n1_to_slider (slider_to_n1 (some 50)) = some 50 ∧
    slider_to_n1 (n1_to_slider (some (121/2))) = some (121/2) :=
  ⟨slider_inverse_roundtrip.1 50 (by norm_num) (by norm_num),
    slider_inverse_roundtrip.2 (121/2) (by norm_num) (by norm_num)⟩

/-- C8: an undefined (NaN) N1 input produces an undefined slider output
in every slider mapping of the system: the guarded per-aircraft mappings
and the unguarded global `n1_to_slider`, whose `min(max(slider, 0.0),
100.0)` keeps the NaN first argument because comparisons with NaN are
false (the clamping arithmetic never converts NaN into 0 or 100). -/
theorem undefined_propagates_sliders :
    n1_to_slider none = none ∧
    slider_from_n1_772 none = none ∧
    slider_from_n1_a380 none = none ∧
    slider_from_n1_a223 none = none ∧
    pymax none (some 0) = none ∧
    pymin none (some 100) = none :=
  ⟨rfl, rfl, rfl, rfl, rfl, rfl⟩

end SimbriefIF
